import Mathlib

/-
Verification development for the trip-itinerary planner.

The embedding follows the repository source:
  app/data_models.py         -> Attraction, ItineraryRequest
  app/optimization_engine.py -> create_time_matrix, the time-window block of
                                solve_vrptw_for_day (resolveWindow), time_callback,
                                get_route, solve_vrptw_for_day
  app/api.py                 -> generate_itinerary (the per-day allocator loop)

Modelling conventions:
  - Python floats are modelled over the rationals; a value that may be NaN or
    missing (the open/close/duration columns of the attraction table) is an
    Option Int, with none standing for NaN or an unparseable value, so that
    the try/except paths of the source appear as match arms on Option.
  - The haversine helper inside create_time_matrix is floating-point
    trigonometry; it is modelled as an abstract distance function parameter
    dist : (Rat x Rat) -> (Rat x Rat) -> Rat.  All claims about the matrix
    concern the rounding and the diagonal, which are independent of the
    numeric value that dist returns.
  - The OR-Tools constraint solver is an external library, not code of this
    repository.  It is modelled as an abstract parameter
    cpSolve : SolverInput -> Option CPSolution; none models
    routing.SolveWithParameters returning no solution.  A CPSolution carries
    the visiting order (the node path starting at the depot) and the value
    solution.Min(CumulVar(node)), the assigned visit-start minute.
  - Fallible Python code (raised exceptions, the HTTP error paths) is
    modelled with Except String.
  - The wall-clock string field arrival_time of a route stop is presentation
    formatting of start_time_minutes and is omitted from the RouteStop model.
-/

/-- Attraction row (app/data_models.py).  Only the columns read by the
allocator and the daily solver are modelled; rating, review_count,
price_level, themes and sentiment_score are consumed by the recommendation
engine, which is outside the claims.  open_time, close_time and
avg_visit_duration come from a pandas table, so each may be NaN: none. -/
structure Attraction where
  id : Int
  name : String
  latitude : Rat
  longitude : Rat
  open_time : Option Int
  close_time : Option Int
  avg_visit_duration : Option Int
deriving DecidableEq, Repr

instance : Inhabited Attraction where
  default := { id := 0, name := "", latitude := 0, longitude := 0,
               open_time := none, close_time := none, avg_visit_duration := none }

/-- ItineraryRequest (app/data_models.py).  The date strings are consumed by
datetime.strptime in app/api.py; a parsed date is modelled as its ordinal day
number, and none models a string strptime cannot parse. -/
structure ItineraryRequest where
  city : String
  start_date : Option Int
  end_date : Option Int
  budget : Int
  preferences : List String
  daily_start_hour : Int := 9
  daily_end_hour : Int := 21
deriving DecidableEq, Repr

/-- One scheduled stop as emitted by get_route in
app/optimization_engine.py (the dict with keys attraction_name,
start_time_minutes, end_time_minutes). -/
structure RouteStop where
  attraction_name : String
  start_time_minutes : Int
  end_time_minutes : Int
deriving DecidableEq, Repr

/-- Body of one day entry of the final itinerary in app/api.py: either the
list of scheduled stops, or the note carrying the solver error message. -/
inductive PlanBody where
  | stops : List RouteStop → PlanBody
  | note : String → PlanBody
deriving DecidableEq, Repr

/-- One element of final_itinerary in app/api.py.  day is the ordinal of
current_day (start_date plus the loop offset). -/
structure DayPlan where
  day : Int
  plan : PlanBody
deriving DecidableEq, Repr

/-- Python int() applied to a rational: truncation toward zero.  This is the
rounding used by create_time_matrix on the float (distance / speed) * 60. -/
def pyInt (q : Rat) : Int :=
  if 0 ≤ q then ⌊q⌋ else -⌊-q⌋

/-- create_time_matrix (app/optimization_engine.py, lines 11-39).  dist is
the haversine helper, abstracted (floating-point trigonometry).  The numpy
matrix starts as zeros and only cells with i distinct from j are assigned,
so the diagonal stays zero; each assigned cell is
int((distance_km / travel_speed_kmph) * 60). -/
def create_time_matrix (dist : Rat × Rat → Rat × Rat → Rat)
    (locations : List (Rat × Rat)) (travel_speed_kmph : Rat) : List (List Int) :=
  (List.range locations.length).map (fun i =>
    (List.range locations.length).map (fun j =>
      if i = j then 0
      else pyInt (dist (locations.getD i (0, 0)) (locations.getD j (0, 0))
                    / travel_speed_kmph * 60)))

/-- Cell access for a list-of-lists matrix, as the time_matrix cell at row i, column j. -/
def matGet (m : List (List Int)) (i j : Nat) : Int :=
  (m.getD i []).getD j 0

/-- The per-attraction time-window block of solve_vrptw_for_day
(app/optimization_engine.py, lines 79-114).  Numeric open/close/duration give
start = max(open_time, daily_start), end = min(close_time, daily_end) minus
visit_duration; an empty interval (end < start) or any NaN value falls back
to the full-day default window (daily_start, daily_end).  The function is
total: no input raises. -/
def resolveWindow (daily_start daily_end : Int)
    (open_time close_time avg_visit_duration : Option Int) : Int × Int :=
  match open_time, close_time, avg_visit_duration with
  | some o, some c, some d =>
    let start := max o daily_start
    let max_end_time := min c daily_end
    let e := max_end_time - d
    if e < start then (daily_start, daily_end) else (start, e)
  | _, _, _ => (daily_start, daily_end)

/-- The time_windows list as assembled in solve_vrptw_for_day: index 0 is the
depot with the full daily span, index k+1 is attraction k resolved. -/
def buildTimeWindows (daily_start daily_end : Int) (attrs : List Attraction) :
    List (Int × Int) :=
  (daily_start, daily_end) ::
    attrs.map (fun r => resolveWindow daily_start daily_end
      r.open_time r.close_time r.avg_visit_duration)

/-- time_callback (app/optimization_engine.py, lines 126-144): arc cost is
travel time plus the service duration of the node being left; the depot
(node 0) contributes zero, and an invalid duration falls back to 60. -/
def time_callback (time_matrix : List (List Int)) (attrs : List Attraction)
    (from_node to_node : Nat) : Int :=
  let duration : Int :=
    if from_node > 0 then ((attrs.getD (from_node - 1) default).avg_visit_duration).getD 60
    else 0
  matGet time_matrix from_node to_node + duration

/-- Abstract result of routing.SolveWithParameters: the node sequence of the
single vehicle starting at the depot, and solution.Min(CumulVar(node)), the
assigned visit-start minute of each node. -/
structure CPSolution where
  path : List Nat
  startOf : Nat → Int

/-- The data handed to OR-Tools by solve_vrptw_for_day: the data dict
(time_matrix, num_locations, num_vehicles, depot, time_windows), the
registered transit callback, and the dimension horizon daily_end. -/
structure SolverInput where
  time_matrix : List (List Int)
  num_locations : Nat
  num_vehicles : Nat
  depot : Nat
  time_windows : List (Int × Int)
  transit : Nat → Nat → Int
  daily_end : Int

/-- get_route traversal (app/optimization_engine.py, lines 178-205) over an
explicit node path.  Node 0 (the depot) is skipped.  For an attraction node,
end_time_minutes = start_time_minutes + avg_visit_duration; when that
duration is NaN the Python int(start + NaN) raises ValueError, modelled as
the error arm. -/
def get_route_aux (attrs : List Attraction) (sol : CPSolution) :
    List Nat → Except String (List RouteStop)
  | [] => Except.ok []
  | n :: rest =>
    if n = 0 then get_route_aux attrs sol rest
    else
      match (attrs.getD (n - 1) default).avg_visit_duration with
      | none => Except.error "ValueError: cannot convert float NaN to integer"
      | some dur =>
        match get_route_aux attrs sol rest with
        | Except.error msg => Except.error msg
        | Except.ok stops =>
          Except.ok ({ attraction_name := (attrs.getD (n - 1) default).name,
                       start_time_minutes := sol.startOf n,
                       end_time_minutes := sol.startOf n + dur } :: stops)

/-- get_route applied to the solution path. -/
def get_route (attrs : List Attraction) (sol : CPSolution) :
    Except String (List RouteStop) :=
  get_route_aux attrs sol sol.path

/-- Coordinates of an attraction row, as read by solve_vrptw_for_day. -/
def coordsOf (a : Attraction) : Rat × Rat :=
  (a.latitude, a.longitude)

/-- full_locations in solve_vrptw_for_day (lines 46-61): the virtual depot,
placed at the coordinates of the first attraction, prepended to all
attraction coordinates. -/
def full_locations (attrs : List Attraction) : List (Rat × Rat) :=
  let locations := attrs.map coordsOf
  locations.headD (0, 0) :: locations

/-- solve_vrptw_for_day (app/optimization_engine.py), parametric in the
haversine distance (dist) and the external OR-Tools search (cpSolve).  It
prepares the matrix, the windows and the callback, invokes the solver, and
formats the route; an empty candidate set or a failed search returns the
corresponding error message. -/
def solve_vrptw_for_day (dist : Rat × Rat → Rat × Rat → Rat)
    (cpSolve : SolverInput → Option CPSolution)
    (attrs : List Attraction) (req : ItineraryRequest) :
    Except String (List RouteStop) :=
  if (attrs.map coordsOf).isEmpty then
    Except.error "No attractions found for the given criteria."
  else
    let full := full_locations attrs
    let time_matrix := create_time_matrix dist full 20
    let daily_start := req.daily_start_hour * 60
    let daily_end := req.daily_end_hour * 60
    let time_windows := buildTimeWindows daily_start daily_end attrs
    match cpSolve { time_matrix := time_matrix,
                    num_locations := full.length,
                    num_vehicles := 1,
                    depot := 0,
                    time_windows := time_windows,
                    transit := time_callback time_matrix attrs,
                    daily_end := daily_end } with
    | none => Except.error "Optimization failed to find a feasible route. Try reducing the number of stops or increasing the daily available time."
    | some sol => get_route attrs sol

/-- attractions_per_day in app/api.py (line 60): target activities per day. -/
def attractions_per_day : Nat := 4

/-- Pool update after a solved day (app/api.py, lines 94-98):
the pandas filter keeping the rows whose name column is not isin scheduled_names. -/
def removeScheduled (pool : List Attraction) (stops : List RouteStop) :
    List Attraction :=
  let scheduled_names := stops.map RouteStop.attraction_name
  pool.filter (fun a => decide (a.name ∉ scheduled_names))

/-- pandas DataFrame.head(n): the first n rows for nonnegative n, and all
rows except the last |n| for negative n. -/
def pandasHead (l : List α) (n : Int) : List α :=
  if 0 ≤ n then l.take n.toNat else l.take (l.length - n.natAbs)

/-- The daily loop of generate_itinerary (app/api.py, lines 65-102), given
the remaining day count, the ordinal of the current day and the current
pool.  Each day takes the head of the pool as daily_pool, breaks if it is
empty, otherwise invokes the daily solver; a successful route is appended
and the scheduled names filtered out of the pool, an error route is appended
as a note with the pool untouched.  A successful but empty route makes the
Python daily_route[0] raise IndexError, modelled as the error arm. -/
def allocLoop (solveDay : List Attraction → ItineraryRequest → Except String (List RouteStop))
    (req : ItineraryRequest) :
    Nat → Int → List Attraction → Except String (List DayPlan)
  | 0, _, _ => Except.ok []
  | d + 1, dayOrd, pool =>
    let daily_pool := pool.take attractions_per_day
    if daily_pool.isEmpty then Except.ok []
    else
      match solveDay daily_pool req with
      | Except.ok [] => Except.error "IndexError: list index out of range"
      | Except.ok (s :: rest) =>
        match allocLoop solveDay req d (dayOrd + 1) (removeScheduled pool (s :: rest)) with
        | Except.ok plans =>
          Except.ok ({ day := dayOrd, plan := PlanBody.stops (s :: rest) } :: plans)
        | Except.error msg => Except.error msg
      | Except.error msg =>
        match allocLoop solveDay req d (dayOrd + 1) pool with
        | Except.ok plans =>
          Except.ok ({ day := dayOrd, plan := PlanBody.note msg } :: plans)
        | Except.error m2 => Except.error m2

/-- generate_itinerary (app/api.py, lines 44-102) after request
construction, parametric in the daily solver.  strptime on an unparseable
date raises (the error arm); otherwise trip_duration_days =
(end - start).days + 1, the ranked pool is cut to
min(len(pool), trip_duration_days * 4) rows with DataFrame.head, and the
daily loop runs for range(trip_duration_days) iterations (zero iterations
when the range is inverted). -/
def generate_itinerary
    (solveDay : List Attraction → ItineraryRequest → Except String (List RouteStop))
    (pool : List Attraction) (req : ItineraryRequest) :
    Except String (List DayPlan) :=
  match req.start_date, req.end_date with
  | some s, some e =>
    let trip_duration_days : Int := e - s + 1
    let max_attractions : Int :=
      min (pool.length : Int) (trip_duration_days * (attractions_per_day : Int))
    let pool0 := pandasHead pool max_attractions
    allocLoop solveDay req trip_duration_days.toNat s pool0
  | _, _ => Except.error "ValueError: time data does not match format"

/-- Modelled from the spec: section 4.4 prescribes removal of every
scheduled point from the pool BY IDENTITY.  This definition follows the
spec wording, for comparison with the name-based removeScheduled of the code;
it keeps exactly the rows whose identifier was not scheduled. -/
def removeScheduledByIdSpec (pool : List Attraction) (scheduled_ids : List Int) :
    List Attraction :=
  pool.filter (fun a => decide (a.id ∉ scheduled_ids))

/-- Names carried by the stops of a day entry; a note entry carries none. -/
def stopNamesOf : DayPlan → List String
  | { day := _, plan := PlanBody.stops l } => l.map RouteStop.attraction_name
  | { day := _, plan := PlanBody.note _ } => []

/-- Two day entries never schedule a common attraction name. -/
def plansNameDisjoint (p q : DayPlan) : Prop :=
  ∀ n ∈ stopNamesOf p, n ∉ stopNamesOf q

/-- Pairing of a route node with the stop it emitted: the stop starts at the
minute the solution assigned to the node, that minute lies inside the
resolved time window of the node, and the stop ends after the visit
duration of the underlying attraction. -/
def stopMatchesNode (daily_start daily_end : Int) (attrs : List Attraction)
    (sol : CPSolution) (n : Nat) (st : RouteStop) : Prop :=
  st.start_time_minutes = sol.startOf n ∧
  ((buildTimeWindows daily_start daily_end attrs).getD n (0, 0)).1 ≤ st.start_time_minutes ∧
  st.start_time_minutes ≤ ((buildTimeWindows daily_start daily_end attrs).getD n (0, 0)).2 ∧
  st.end_time_minutes = st.start_time_minutes +
    ((attrs.getD (n - 1) default).avg_visit_duration).getD 0

/-! Concrete fixtures used by the closed theorems below: small attraction
rows, requests, distance functions and solver oracles on which the embedded
program is evaluated. -/

/-- Distance function that is constantly one half of a kilometre. -/
def distHalf : Rat × Rat → Rat × Rat → Rat := fun _ _ => 1 / 2

/-- Distance function that is constantly zero; it satisfies the haversine
property that the distance from a point to itself is zero. -/
def distZero : Rat × Rat → Rat × Rat → Rat := fun _ _ => 0

/-- Daily solver oracle that schedules every offered attraction at 600. -/
def demoSolver : List Attraction → ItineraryRequest → Except String (List RouteStop) :=
  fun daily _ => Except.ok (daily.map (fun a =>
    { attraction_name := a.name, start_time_minutes := 600, end_time_minutes := 700 }))

/-- Daily solver oracle that reports infeasibility for every working set. -/
def errSolver : List Attraction → ItineraryRequest → Except String (List RouteStop) :=
  fun _ _ => Except.error "no feasible route"

/-- Constraint-solver oracle that visits every node in index order,
assigning start minute 600 to each. -/
def cpAll : SolverInput → Option CPSolution :=
  fun inp => some { path := List.range inp.num_locations, startOf := fun _ => 600 }

/-- A plain valid attraction row. -/
def cxA1 : Attraction :=
  { id := 1, name := "Museum A", latitude := 0, longitude := 0,
    open_time := some 540, close_time := some 1020, avg_visit_duration := some 120 }

/-- Attraction row with a 90 minute visit duration. -/
def c7Attr : Attraction :=
  { id := 3, name := "Cafe", latitude := 0, longitude := 0,
    open_time := some 480, close_time := some 1320, avg_visit_duration := some 90 }

/-- Attraction row whose avg_visit_duration column is NaN. -/
def nanAttr : Attraction :=
  { id := 9, name := "NaN Spot", latitude := 0, longitude := 0,
    open_time := some 540, close_time := some 1020, avg_visit_duration := none }

/-- Attraction row with window 540-1020 and duration 120. -/
def wAttr : Attraction :=
  { id := 7, name := "Window Spot", latitude := 0, longitude := 0,
    open_time := some 540, close_time := some 1020, avg_visit_duration := some 120 }

/-- First of two distinct attraction rows sharing the name Twin. -/
def cxX1 : Attraction :=
  { id := 1, name := "Twin", latitude := 0, longitude := 0,
    open_time := some 540, close_time := some 1020, avg_visit_duration := some 60 }

/-- Second of two distinct attraction rows sharing the name Twin. -/
def cxX2 : Attraction :=
  { id := 2, name := "Twin", latitude := 1, longitude := 1,
    open_time := some 600, close_time := some 1100, avg_visit_duration := some 90 }

/-- Valid attraction row named P1. -/
def p1 : Attraction :=
  { id := 11, name := "P1", latitude := 0, longitude := 0,
    open_time := some 540, close_time := some 1020, avg_visit_duration := some 100 }

/-- Valid attraction row named P2. -/
def p2 : Attraction :=
  { id := 12, name := "P2", latitude := 0, longitude := 1,
    open_time := some 540, close_time := some 1020, avg_visit_duration := some 50 }

/-- Three-day request: days 0, 1 and 2. -/
def c1req : ItineraryRequest :=
  { city := "X", start_date := some 0, end_date := some 2, budget := 2, preferences := [] }

/-- Two-day request: days 0 and 1. -/
def c3req : ItineraryRequest :=
  { city := "X", start_date := some 0, end_date := some 1, budget := 2, preferences := [] }

/-- Request with an inverted date range: start day 10, end day 8. -/
def invReq : ItineraryRequest :=
  { city := "X", start_date := some 10, end_date := some 8, budget := 2, preferences := [] }

/-- Request whose start date string does not parse. -/
def badReq : ItineraryRequest :=
  { city := "X", start_date := none, end_date := some 3, budget := 2, preferences := [] }

/-- Solver solution visiting the depot then node 1, all starts at 600. -/
def nanSol : CPSolution :=
  { path := [0, 1], startOf := fun _ => 600 }

/-- Solver solution visiting the depot then node 1, all starts at 600. -/
def wSol : CPSolution :=
  { path := [0, 1], startOf := fun _ => 600 }

/-! Helper lemmas about the embedded definitions, shared by the claim
theorems below. -/

/-- Closed form of one matrix cell produced by create_time_matrix. -/
lemma matGet_create (dist : Rat × Rat → Rat × Rat → Rat) (locs : List (Rat × Rat))
    (speed : Rat) (i j : Nat) (hi : i < locs.length) (hj : j < locs.length) :
    matGet (create_time_matrix dist locs speed) i j =
      if i = j then 0
      else pyInt (dist (locs.getD i (0, 0)) (locs.getD j (0, 0)) / speed * 60) := by
  unfold matGet create_time_matrix
  simp [List.getD_eq_getElem?_getD, List.getElem?_map, List.getElem?_range, hi, hj]

/-- Peeling one step off a map over List.range. -/
lemma cons_range_map {α : Type} (g : Nat → α) (n : Nat) :
    (List.range (n + 1)).map g = g 0 :: (List.range n).map (fun k => g (k + 1)) := by
  rw [List.range_succ_eq_map, List.map_cons, List.map_map]
  rfl

/-- An empty pool makes the allocator loop exit at once with no day entry. -/
lemma allocLoop_nil (sd : List Attraction → ItineraryRequest → Except String (List RouteStop))
    (req : ItineraryRequest) (d : Nat) (i : Int) :
    allocLoop sd req d i [] = Except.ok [] := by
  cases d <;> rfl

/-- DataFrame.head of an empty frame is empty for every argument. -/
lemma pandasHead_nil (n : Int) : pandasHead ([] : List Attraction) n = [] := by
  unfold pandasHead
  split <;> simp

/-- A successful allocator run yields at most one day entry per remaining
day, labelled with consecutive day ordinals from the current one. -/
lemma allocLoop_shape (sd : List Attraction → ItineraryRequest → Except String (List RouteStop))
    (req : ItineraryRequest) (d : Nat) :
    ∀ (i : Int) (pool : List Attraction) (plans : List DayPlan),
      allocLoop sd req d i pool = Except.ok plans →
      plans.length ≤ d ∧
      plans.map DayPlan.day = (List.range plans.length).map (fun k : Nat => i + (k : Int)) := by
  induction d with
  | zero =>
    intro i pool plans h
    simp only [allocLoop, Except.ok.injEq] at h
    subst h
    simp
  | succ d ih =>
    intro i pool plans h
    simp only [allocLoop] at h
    split at h
    · simp only [Except.ok.injEq] at h
      subst h
      simp
    · split at h
      · exact absurd h (by simp)
      · rename_i s rest heq
        split at h
        · rename_i plans2 hrec
          simp only [Except.ok.injEq] at h
          subst h
          obtain ⟨hlen, hdays⟩ := ih (i + 1) _ plans2 hrec
          refine ⟨by simpa using Nat.succ_le_succ hlen, ?_⟩
          simp only [List.map_cons, List.length_cons]
          rw [cons_range_map, hdays]
          refine congrArg₂ _ (by simp) ?_
          refine List.map_congr_left ?_
          intro k _
          push_cast
          ring
        · exact absurd h (by simp)
      · split at h
        · rename_i plans2 hrec
          simp only [Except.ok.injEq] at h
          subst h
          obtain ⟨hlen, hdays⟩ := ih (i + 1) _ plans2 hrec
          refine ⟨by simpa using Nat.succ_le_succ hlen, ?_⟩
          simp only [List.map_cons, List.length_cons]
          rw [cons_range_map, hdays]
          refine congrArg₂ _ (by simp) ?_
          refine List.map_congr_left ?_
          intro k _
          push_cast
          ring
        · exact absurd h (by simp)

/-- A name surviving the pool filter was not among the scheduled names. -/
lemma removeScheduled_not_scheduled (pool : List Attraction) (stops0 : List RouteStop)
    (nm : String) (h : nm ∈ (removeScheduled pool stops0).map Attraction.name) :
    nm ∉ stops0.map RouteStop.attraction_name := by
  obtain ⟨a, ha, rfl⟩ := List.mem_map.mp h
  have hmem := List.mem_filter.mp ha
  simpa using hmem.2

/-- If the daily solver only emits names drawn from its working set, every
name appearing in a day entry of an allocator run is a name of the pool the
run started from. -/
lemma allocLoop_names
    (sd : List Attraction → ItineraryRequest → Except String (List RouteStop))
    (req : ItineraryRequest)
    (hs : ∀ (daily : List Attraction) (stops : List RouteStop),
      sd daily req = Except.ok stops →
      ∀ st ∈ stops, st.attraction_name ∈ daily.map Attraction.name)
    (d : Nat) :
    ∀ (i : Int) (pool : List Attraction) (plans : List DayPlan),
      allocLoop sd req d i pool = Except.ok plans →
      ∀ p ∈ plans, ∀ nm ∈ stopNamesOf p, nm ∈ pool.map Attraction.name := by
  induction d with
  | zero =>
    intro i pool plans h
    simp only [allocLoop, Except.ok.injEq] at h
    subst h
    simp
  | succ d ih =>
    intro i pool plans h
    simp only [allocLoop] at h
    split at h
    · simp only [Except.ok.injEq] at h
      subst h
      simp
    · split at h
      · exact absurd h (by simp)
      · rename_i s rest heq
        split at h
        · rename_i plans2 hrec
          simp only [Except.ok.injEq] at h
          subst h
          intro p hp nm hnm
          rcases List.mem_cons.mp hp with hp | hp
          · subst hp
            obtain ⟨st, hst, rfl⟩ := List.mem_map.mp hnm
            have hdm := hs (pool.take attractions_per_day) (s :: rest) heq st hst
            exact List.map_subset _ (List.take_subset _ _) hdm
          · have hmem := ih (i + 1) _ plans2 hrec p hp nm hnm
            refine List.map_subset Attraction.name ?_ hmem
            intro a ha
            exact List.mem_of_mem_filter ha
        · exact absurd h (by simp)
      · split at h
        · rename_i plans2 hrec
          simp only [Except.ok.injEq] at h
          subst h
          intro p hp nm hnm
          rcases List.mem_cons.mp hp with hp | hp
          · subst hp
            exact absurd hnm (by simp [stopNamesOf])
          · exact ih (i + 1) pool plans2 hrec p hp nm hnm
        · exact absurd h (by simp)

/-- If the daily solver only emits names drawn from its working set, the day
entries of a successful allocator run carry pairwise disjoint name sets. -/
lemma allocLoop_pairwise
    (sd : List Attraction → ItineraryRequest → Except String (List RouteStop))
    (req : ItineraryRequest)
    (hs : ∀ (daily : List Attraction) (stops : List RouteStop),
      sd daily req = Except.ok stops →
      ∀ st ∈ stops, st.attraction_name ∈ daily.map Attraction.name)
    (d : Nat) :
    ∀ (i : Int) (pool : List Attraction) (plans : List DayPlan),
      allocLoop sd req d i pool = Except.ok plans →
      plans.Pairwise plansNameDisjoint := by
  induction d with
  | zero =>
    intro i pool plans h
    simp only [allocLoop, Except.ok.injEq] at h
    subst h
    simp
  | succ d ih =>
    intro i pool plans h
    simp only [allocLoop] at h
    split at h
    · simp only [Except.ok.injEq] at h
      subst h
      simp
    · split at h
      · exact absurd h (by simp)
      · rename_i s rest heq
        split at h
        · rename_i plans2 hrec
          simp only [Except.ok.injEq] at h
          subst h
          refine List.Pairwise.cons ?_ (ih (i + 1) _ plans2 hrec)
          intro q hq nm hnm hnmq
          have hmem := allocLoop_names sd req hs d (i + 1) _ plans2 hrec q hq nm hnmq
          exact absurd hnm (removeScheduled_not_scheduled pool (s :: rest) nm hmem)
        · exact absurd h (by simp)
      · split at h
        · rename_i plans2 hrec
          simp only [Except.ok.injEq] at h
          subst h
          refine List.Pairwise.cons ?_ (ih (i + 1) pool plans2 hrec)
          intro q hq nm hnm
          exact absurd hnm (by simp [stopNamesOf])
        · exact absurd h (by simp)

/-- Every stop formatted by the route traversal carries the name of one of
the attraction rows handed to the solver. -/
lemma get_route_aux_names (attrs : List Attraction) (sol : CPSolution) :
    ∀ (path : List Nat) (stops : List RouteStop),
      get_route_aux attrs sol path = Except.ok stops →
      ∀ st ∈ stops, st.attraction_name ∈ attrs.map Attraction.name := by
  intro path
  induction path with
  | nil =>
    intro stops h
    simp only [get_route_aux, Except.ok.injEq] at h
    subst h
    simp
  | cons n rest ih =>
    intro stops h
    by_cases hn : n = 0
    · subst hn
      simp only [get_route_aux, reduceIte] at h
      exact ih stops h
    · simp only [get_route_aux, if_neg hn] at h
      cases hdur : (attrs.getD (n - 1) default).avg_visit_duration with
      | none =>
        rw [hdur] at h
        exact absurd h (by simp)
      | some dur =>
        rw [hdur] at h
        cases hrec : get_route_aux attrs sol rest with
        | error m =>
          rw [hrec] at h
          exact absurd h (by simp)
        | ok tail =>
          rw [hrec] at h
          simp only [Except.ok.injEq] at h
          subst h
          intro st hst
          rcases List.mem_cons.mp hst with hst | hst
          · subst hst
            have hlt : n - 1 < attrs.length := by
              by_contra hge
              push_neg at hge
              rw [List.getD_eq_default _ _ hge] at hdur
              exact absurd hdur (by simp)
            rw [List.getD_eq_getElem _ _ hlt]
            exact List.mem_map.mpr ⟨attrs[n - 1], List.getElem_mem hlt, rfl⟩
          · exact ih tail hrec st hst

/-- A successful daily solve only emits names of its candidate rows. -/
lemma solve_names (dist : Rat × Rat → Rat × Rat → Rat)
    (cpSolve : SolverInput → Option CPSolution) (attrs : List Attraction)
    (req : ItineraryRequest) (stops : List RouteStop)
    (h : solve_vrptw_for_day dist cpSolve attrs req = Except.ok stops) :
    ∀ st ∈ stops, st.attraction_name ∈ attrs.map Attraction.name := by
  simp only [solve_vrptw_for_day] at h
  split at h
  · exact absurd h (by simp)
  · split at h
    · exact absurd h (by simp)
    · exact get_route_aux_names attrs _ _ stops h

/-- When the route traversal succeeds, the emitted stops pair up with the
nonzero nodes of the path and each satisfies its resolved window bounds. -/
lemma get_route_aux_forall2 (ds de : Int) (attrs : List Attraction) (sol : CPSolution) :
    ∀ (path : List Nat) (stops : List RouteStop),
      (∀ n ∈ path, 0 < n →
        ((buildTimeWindows ds de attrs).getD n (0, 0)).1 ≤ sol.startOf n ∧
        sol.startOf n ≤ ((buildTimeWindows ds de attrs).getD n (0, 0)).2) →
      get_route_aux attrs sol path = Except.ok stops →
      List.Forall₂ (stopMatchesNode ds de attrs sol) (path.filter (fun n => n ≠ 0)) stops := by
  intro path
  induction path with
  | nil =>
    intro stops _ h
    simp only [get_route_aux, Except.ok.injEq] at h
    subst h
    simp
  | cons n rest ih =>
    intro stops hwin h
    by_cases hn : n = 0
    · subst hn
      simp only [get_route_aux, reduceIte] at h
      have hall := ih stops (fun m hm hpos => hwin m (List.mem_cons_of_mem _ hm) hpos) h
      simpa [List.filter_cons] using hall
    · simp only [get_route_aux, if_neg hn] at h
      cases hdur : (attrs.getD (n - 1) default).avg_visit_duration with
      | none =>
        rw [hdur] at h
        exact absurd h (by simp)
      | some dur =>
        rw [hdur] at h
        cases hrec : get_route_aux attrs sol rest with
        | error msg =>
          rw [hrec] at h
          exact absurd h (by simp)
        | ok tail =>
          rw [hrec] at h
          simp only [Except.ok.injEq] at h
          subst h
          have hfil : (n :: rest).filter (fun m => m ≠ 0) =
              n :: rest.filter (fun m => m ≠ 0) := by
            simp [List.filter_cons, hn]
          rw [hfil]
          refine List.Forall₂.cons ?_
            (ih tail (fun m hm hpos => hwin m (List.mem_cons_of_mem _ hm) hpos) hrec)
          have hw := hwin n (List.mem_cons_self _ _) (Nat.pos_of_ne_zero hn)
          exact ⟨rfl, hw.1, hw.2,
            by show _ = _ + ((attrs.getD (n - 1) default).avg_visit_duration).getD 0; rw [hdur]; rfl⟩

/-! Claim theorems.  Each theorem is named after the property it settles;
the doc comment records the claim identifier. -/

/-- Claim C1, counterexample.  The claim states that every calendar day in
the inclusive range receives a DayPlan, with an explicit no-candidates note
once the pool is exhausted.  On the concrete three-day request c1req (days
0, 1 and 2) with a one-row pool, the pool is consumed on day 0 and the loop
then breaks: the returned itinerary holds a single DayPlan, so days 1 and 2
are silently omitted and no note entry exists. -/
theorem allocator_omits_exhausted_days_counterexample :
    generate_itinerary demoSolver [cxA1] c1req =
      Except.ok [⟨0, PlanBody.stops [⟨"Museum A", 600, 700⟩]⟩] ∧
    c1req.start_date = some 0 ∧ c1req.end_date = some 2 :=
  ⟨rfl, rfl, rfl⟩

/-- Claim C1, amended.  For a valid request the allocator returns DayPlans
for a consecutive prefix of the date range: at most one entry per calendar
day, labelled with consecutive day ordinals starting at start_date; once
the working pool is exhausted the loop exits, so the remaining days are
omitted from the output instead of receiving an explicit no-candidates
DayPlan (an empty pool yields an empty itinerary at once). -/
theorem allocator_prefix_of_days_amended
    (sd : List Attraction → ItineraryRequest → Except String (List RouteStop))
    (pool : List Attraction) (req : ItineraryRequest) (s e : Int) (plans : List DayPlan)
    (hs : req.start_date = some s) (he : req.end_date = some e)
    (h : generate_itinerary sd pool req = Except.ok plans) :
    plans.length ≤ (e - s + 1).toNat ∧
    plans.map DayPlan.day = (List.range plans.length).map (fun k : Nat => s + (k : Int)) ∧
    (pool = [] → plans = []) := by
  simp only [generate_itinerary, hs, he] at h
  obtain ⟨hlen, hdays⟩ := allocLoop_shape sd req _ s _ plans h
  refine ⟨hlen, hdays, ?_⟩
  intro hpool
  subst hpool
  rw [pandasHead_nil, allocLoop_nil] at h
  exact (Except.ok.injEq _ _).mp h.symm

/-- Claim C1, witness: the amended theorem evaluated on the concrete
three-day request and one-row pool of the counterexample. -/
theorem allocator_prefix_of_days_amended_witness :
    ([⟨0, PlanBody.stops [⟨"Museum A", 600, 700⟩]⟩] : List DayPlan).length ≤
      ((2 : Int) - 0 + 1).toNat ∧
    ([⟨0, PlanBody.stops [⟨"Museum A", 600, 700⟩]⟩] : List DayPlan).map DayPlan.day =
      (List.range 1).map (fun k : Nat => (0 : Int) + (k : Int)) ∧
    ([cxA1] = ([] : List Attraction) →
      ([⟨0, PlanBody.stops [⟨"Museum A", 600, 700⟩]⟩] : List DayPlan) = []) :=
  allocator_prefix_of_days_amended demoSolver [cxA1] c1req 0 2
    [⟨0, PlanBody.stops [⟨"Museum A", 600, 700⟩]⟩] rfl rfl rfl

/-- Claim C2.  For numeric opening minute, closing minute and positive
duration, the time-window resolver returns the interval from
max(open_minute, daily_start) to min(close_minute, daily_end) - duration;
when that interval is empty (latest start below earliest start) it
substitutes the full-day window (daily_start, daily_end).  The resolver is
a total function, so the relaxation never raises. -/
theorem resolveWindow_feasible_or_relaxed (ds de o c d : Int) (_hd : 0 < d) :
    (max o ds ≤ min c de - d →
      resolveWindow ds de (some o) (some c) (some d) = (max o ds, min c de - d)) ∧
    (min c de - d < max o ds →
      resolveWindow ds de (some o) (some c) (some d) = (ds, de)) := by
  have hdef : resolveWindow ds de (some o) (some c) (some d) =
      if min c de - d < max o ds then (ds, de) else (max o ds, min c de - d) := rfl
  constructor
  · intro h
    rw [hdef, if_neg (not_lt.mpr h)]
  · intro h
    rw [hdef, if_pos h]

/-- Claim C2, witness: the spec scenario of a 300 minute duration inside a
60 minute open interval relaxes to the full day, and a feasible window
(540-1020, duration 120, day 540-1260) resolves to (540, 900). -/
theorem resolveWindow_feasible_or_relaxed_witness :
    resolveWindow 540 1260 (some 600) (some 660) (some 300) = (540, 1260) ∧
    resolveWindow 540 1260 (some 540) (some 1020) (some 120) = (540, 900) := by
  constructor
  · exact (resolveWindow_feasible_or_relaxed 540 1260 600 660 300 (by norm_num)).2 (by norm_num)
  · have h := (resolveWindow_feasible_or_relaxed 540 1260 540 1020 120 (by norm_num)).1 (by norm_num)
    norm_num at h
    exact h

/-- Claim C3, counterexample.  The claim states that scheduled points are
removed from the pool by identity.  The pool update of app/api.py filters
by name: scheduling the single stop named Twin removes both rows with that
name, including the row with identifier 2 that was never scheduled, whereas
identity-based removal of the scheduled identifier 1 keeps that row. -/
theorem removal_is_by_name_counterexample :
    removeScheduled [cxX1, cxX2] [⟨"Twin", 600, 660⟩] = [] ∧
    removeScheduledByIdSpec [cxX1, cxX2] [1] = [cxX2] :=
  ⟨rfl, rfl⟩

/-- Claim C3, amended.  After each successfully solved day every scheduled
attraction is removed from the pool by NAME, not by identifier; this
removes every scheduled row (and any other row sharing its name), so no
attraction name appears in the stops of more than one DayPlan across the
whole itinerary produced with the daily solver of the repository. -/
theorem scheduled_names_never_repeat_amended (dist : Rat × Rat → Rat × Rat → Rat)
    (cpSolve : SolverInput → Option CPSolution) (pool : List Attraction)
    (req : ItineraryRequest) (plans : List DayPlan)
    (h : generate_itinerary (solve_vrptw_for_day dist cpSolve) pool req = Except.ok plans) :
    plans.Pairwise plansNameDisjoint := by
  have hs : ∀ (daily : List Attraction) (stops : List RouteStop),
      solve_vrptw_for_day dist cpSolve daily req = Except.ok stops →
      ∀ st ∈ stops, st.attraction_name ∈ daily.map Attraction.name :=
    fun daily stops hh => solve_names dist cpSolve daily req stops hh
  rcases hsd : req.start_date with _ | s
  · simp only [generate_itinerary, hsd] at h
    exact absurd h (by simp)
  · rcases hed : req.end_date with _ | e
    · simp only [generate_itinerary, hsd, hed] at h
      exact absurd h (by simp)
    · simp only [generate_itinerary, hsd, hed] at h
      exact allocLoop_pairwise _ req hs _ s _ plans h

/-- Claim C3, witness: a concrete two-day run over the pool [p1, p2] with
the index-order solver oracle schedules both rows on day 0 and exhausts the
pool; the resulting single day entry is trivially pairwise disjoint. -/
theorem scheduled_names_never_repeat_amended_witness :
    ([⟨0, PlanBody.stops [⟨"P1", 600, 700⟩, ⟨"P2", 600, 650⟩]⟩] : List DayPlan).Pairwise
      plansNameDisjoint :=
  scheduled_names_never_repeat_amended distZero cpAll [p1, p2] c3req
    [⟨0, PlanBody.stops [⟨"P1", 600, 700⟩, ⟨"P2", 600, 650⟩]⟩] rfl

/-- Claim C4.  When the daily solver reports infeasibility on the current
working set, the allocator appends a DayPlan carrying the note for that day
and leaves the pool untouched; since the solver is invoked on the unchanged
working set again, every remaining day of the range also receives its own
note DayPlan, the result is ok (never an abort), and no day is dropped. -/
theorem infeasible_day_keeps_pool_and_continues
    (sd : List Attraction → ItineraryRequest → Except String (List RouteStop))
    (req : ItineraryRequest) (msg : String) (d : Nat) :
    ∀ (i : Int) (pool : List Attraction), pool ≠ [] →
    sd (pool.take attractions_per_day) req = Except.error msg →
    allocLoop sd req d i pool =
      Except.ok ((List.range d).map
        (fun k : Nat => ⟨i + (k : Int), PlanBody.note msg⟩)) := by
  induction d with
  | zero =>
    intro i pool _ _
    rfl
  | succ d ih =>
    intro i pool hne hsd
    obtain ⟨a, t, rfl⟩ := List.exists_cons_of_ne_nil hne
    have hrec := ih (i + 1) (a :: t) (List.cons_ne_nil a t) hsd
    simp only [allocLoop, List.isEmpty_eq_true, hsd, hrec]
    rw [cons_range_map]
    have hemp : (List.take attractions_per_day (a :: t)) = a :: List.take 3 t := rfl
    simp only [hemp, List.cons_ne_nil, if_false, reduceIte]
    refine congrArg _ (congrArg₂ _ (by simp) ?_)
    refine List.map_congr_left ?_
    intro k _
    have hk : i + ((k : Int) + 1) = i + 1 + (k : Int) := by ring
    simp [hk]

/-- Claim C4, witness: with the always-infeasible solver oracle, a two-day
run over a nonempty pool returns a note DayPlan for both days. -/
theorem infeasible_day_keeps_pool_and_continues_witness :
    allocLoop errSolver c1req 2 0 [cxA1] =
      Except.ok ((List.range 2).map
        (fun k : Nat => ⟨(0 : Int) + (k : Int), PlanBody.note "no feasible route"⟩)) :=
  infeasible_day_keeps_pool_and_continues errSolver c1req "no feasible route" 2 0 [cxA1]
    (List.cons_ne_nil cxA1 []) rfl

/-- Claim C5, counterexample.  The claim states that a request with an
inverted date range is rejected before any solving with the error surfaced.
On the concrete request invReq (start day 10, end day 8) the allocator does
not reject: it returns a successful empty itinerary with no error. -/
theorem inverted_range_not_rejected_counterexample :
    generate_itinerary demoSolver [cxA1] invReq = Except.ok [] ∧
    invReq.start_date = some 10 ∧ invReq.end_date = some 8 :=
  ⟨rfl, rfl, rfl⟩

/-- Claim C5, amended.  A request whose date range is inverted is NOT
rejected: the day loop runs zero iterations and the allocator returns a
successful empty itinerary, with no solver invoked and no DayPlan produced;
a request whose date strings do not parse aborts with an uncaught
ValueError before any solving, with nothing partially computed. -/
theorem inverted_range_returns_empty_amended :
    (∀ (sd : List Attraction → ItineraryRequest → Except String (List RouteStop))
        (pool : List Attraction) (req : ItineraryRequest) (s e : Int),
        req.start_date = some s → req.end_date = some e → e < s →
        generate_itinerary sd pool req = Except.ok []) ∧
    (∀ (sd : List Attraction → ItineraryRequest → Except String (List RouteStop))
        (pool : List Attraction) (req : ItineraryRequest),
        req.start_date = none ∨ req.end_date = none →
        generate_itinerary sd pool req =
          Except.error "ValueError: time data does not match format") := by
  constructor
  · intro sd pool req s e hs he hlt
    simp only [generate_itinerary, hs, he]
    have h0 : (e - s + 1).toNat = 0 := by omega
    rw [h0]
    rfl
  · intro sd pool req h
    rcases h with h | h
    · simp [generate_itinerary, h]
    · cases hs : req.start_date <;> simp [generate_itinerary, hs, h]

/-- Claim C5, witness: the amended theorem evaluated on the inverted
request invReq and on the unparseable request badReq. -/
theorem inverted_range_returns_empty_amended_witness :
    generate_itinerary demoSolver [cxA1] invReq = Except.ok [] ∧
    generate_itinerary demoSolver [cxA1] badReq =
      Except.error "ValueError: time data does not match format" :=
  ⟨inverted_range_returns_empty_amended.1 demoSolver [cxA1] invReq 10 8 rfl rfl (by norm_num),
   inverted_range_returns_empty_amended.2 demoSolver [cxA1] badReq (Or.inl rfl)⟩

/-- Claim C6, counterexample.  The claim states that an off-diagonal cell
equals the CEILING of distance / speed * 60.  With a constant distance of
half a kilometre at 20 km/h the exact value is 1.5 minutes: the code stores
int(1.5) = 1 while the ceiling is 2. -/
theorem create_time_matrix_ceil_counterexample :
    matGet (create_time_matrix distHalf [(0, 0), (1, 1)] 20) 0 1 = 1 ∧
    (⌈((1 : Rat) / 2) / 20 * 60⌉ : Int) = 2 := by
  constructor
  · rw [matGet_create _ _ _ 0 1 (by norm_num) (by norm_num)]
    norm_num [distHalf, pyInt]
  · rw [Int.ceil_eq_iff]
    norm_num

/-- Claim C6, amended.  Every cell of the travel-time matrix with distinct
indices equals Python int() TRUNCATION of distance / speed * 60 — which is
the floor for the nonnegative values produced here, not the ceiling — and
every diagonal cell is zero. -/
theorem create_time_matrix_trunc_amended :
    (∀ (dist : Rat × Rat → Rat × Rat → Rat) (locs : List (Rat × Rat)) (speed : Rat)
        (i j : Nat), i < locs.length → j < locs.length →
        matGet (create_time_matrix dist locs speed) i j =
          if i = j then 0
          else pyInt (dist (locs.getD i (0, 0)) (locs.getD j (0, 0)) / speed * 60)) ∧
    (∀ q : Rat, 0 ≤ q → pyInt q = ⌊q⌋) := by
  constructor
  · exact matGet_create
  · intro q hq
    unfold pyInt
    rw [if_pos hq]

/-- Claim C6, witness: the amended theorem evaluated on the two-point
fixture, giving the zero diagonal cell, and on the rational 3/2. -/
theorem create_time_matrix_trunc_amended_witness :
    matGet (create_time_matrix distHalf [(0, 0), (1, 1)] 20) 1 1 = 0 ∧
    pyInt (3 / 2) = ⌊(3 / 2 : Rat)⌋ := by
  constructor
  · have h := create_time_matrix_trunc_amended.1 distHalf [(0, 0), (1, 1)] 20 1 1
      (by norm_num) (by norm_num)
    simpa using h
  · exact create_time_matrix_trunc_amended.2 (3 / 2) (by norm_num)

/-- Claim C7.  The transit cost from node i to node j is the travel time
plus the service duration of node i, the node just completed: for an
attraction node with numeric duration the cost is matrix cell plus that
duration, and a transition leaving the depot (node 0) adds nothing. -/
theorem time_callback_adds_service_duration (m : List (List Int))
    (attrs : List Attraction) (i j : Nat) :
    (∀ d : Int, 0 < i → (attrs.getD (i - 1) default).avg_visit_duration = some d →
        time_callback m attrs i j = matGet m i j + d) ∧
    (i = 0 → time_callback m attrs i j = matGet m i j) := by
  constructor
  · intro d hi hd
    show matGet m i j +
        (if i > 0 then ((attrs.getD (i - 1) default).avg_visit_duration).getD 60 else 0) =
      matGet m i j + d
    rw [if_pos hi, hd]
    rfl
  · intro h
    subst h
    show matGet m 0 j +
        (if 0 > 0 then ((attrs.getD (0 - 1) default).avg_visit_duration).getD 60 else 0) =
      matGet m 0 j
    rw [if_neg (by omega)]
    omega

/-- Claim C7, witness: the callback evaluated on a concrete matrix and a
90 minute attraction, once leaving node 1 and once leaving the depot. -/
theorem time_callback_adds_service_duration_witness :
    time_callback [[0, 5], [7, 0]] [c7Attr] 1 0 = matGet [[0, 5], [7, 0]] 1 0 + 90 ∧
    time_callback [[0, 5], [7, 0]] [c7Attr] 0 1 = matGet [[0, 5], [7, 0]] 0 1 :=
  ⟨(time_callback_adds_service_duration [[0, 5], [7, 0]] [c7Attr] 1 0).1 90 (by norm_num) rfl,
   (time_callback_adds_service_duration [[0, 5], [7, 0]] [c7Attr] 0 1).2 rfl⟩

/-- Claim C8.  Under the OR-Tools dimension contract — every cumulative
start variable lies inside the range set from the resolved (possibly
relaxed) windows — each RouteStop of a successfully formatted route starts
at the minute assigned to its node, that minute lies between the earliest
and the latest start of the resolved window of its point, and its end
minute is its start minute plus the visit duration of the point. -/
theorem route_stops_within_windows (ds de : Int) (attrs : List Attraction)
    (sol : CPSolution) (stops : List RouteStop)
    (hwin : ∀ n ∈ sol.path, 0 < n →
      ((buildTimeWindows ds de attrs).getD n (0, 0)).1 ≤ sol.startOf n ∧
      sol.startOf n ≤ ((buildTimeWindows ds de attrs).getD n (0, 0)).2)
    (h : get_route attrs sol = Except.ok stops) :
    List.Forall₂ (stopMatchesNode ds de attrs sol)
      (sol.path.filter (fun n => n ≠ 0)) stops :=
  get_route_aux_forall2 ds de attrs sol sol.path stops hwin h

/-- Claim C8, witness: the theorem evaluated on the one-attraction fixture
with window 540-900 (resolved from hours 540-1020 and duration 120 inside
the day 540-1260) and the solution starting node 1 at minute 600. -/
theorem route_stops_within_windows_witness :
    List.Forall₂ (stopMatchesNode 540 1260 [wAttr] wSol) [1] [⟨"Window Spot", 600, 720⟩] :=
  route_stops_within_windows 540 1260 [wAttr] wSol [⟨"Window Spot", 600, 720⟩]
    (by decide) rfl

/-- Claim C9 (code bug).  For a point whose visit duration is NaN the
resolver does substitute the full-day window and the cost callback does
fall back to 60 minutes, but the route formatter does NOT survive: the
Python int(start_time + NaN) in get_route raises ValueError, so a solved
route containing the point aborts the request instead of being returned,
contradicting the never-a-hard-failure intent stated in the code comments
and the spec. -/
theorem nan_duration_crashes_get_route :
    resolveWindow 540 1260 (some 540) (some 1020) none = (540, 1260) ∧
    time_callback [[0, 3], [4, 0]] [nanAttr] 1 0 = matGet [[0, 3], [4, 0]] 1 0 + 60 ∧
    get_route [nanAttr] nanSol = Except.error "ValueError: cannot convert float NaN to integer" :=
  ⟨rfl, rfl, rfl⟩

/-- Claim C10.  For a nonempty candidate list the virtual depot (index 0 of
full_locations) sits at the coordinates of the first candidate, so for any
distance function vanishing on equal points (as haversine does) the matrix
cells between the depot and that candidate are zero in both directions; the
depot window is the full daily span, and the route formatter skips depot
nodes, so the depot is never emitted as a RouteStop. -/
theorem depot_is_first_candidate (dist : Rat × Rat → Rat × Rat → Rat)
    (hdist : ∀ p, dist p p = 0) (a : Attraction) (rest : List Attraction) (ds de : Int) :
    (full_locations (a :: rest)).getD 0 (0, 0) = coordsOf a ∧
    matGet (create_time_matrix dist (full_locations (a :: rest)) 20) 0 1 = 0 ∧
    matGet (create_time_matrix dist (full_locations (a :: rest)) 20) 1 0 = 0 ∧
    (buildTimeWindows ds de (a :: rest)).getD 0 (0, 0) = (ds, de) ∧
    (∀ (sol : CPSolution) (path : List Nat),
      get_route_aux (a :: rest) sol (0 :: path) = get_route_aux (a :: rest) sol path) := by
  have hlen : (full_locations (a :: rest)).length = rest.length + 2 := by
    simp [full_locations, coordsOf]
  have hfull0 : (full_locations (a :: rest)).getD 0 (0, 0) = coordsOf a := rfl
  have hfull1 : (full_locations (a :: rest)).getD 1 (0, 0) = coordsOf a := rfl
  refine ⟨rfl, ?_, ?_, rfl, ?_⟩
  · rw [matGet_create dist _ 20 0 1 (by omega) (by omega)]
    rw [if_neg (by omega), hfull0, hfull1, hdist]
    norm_num [pyInt]
  · rw [matGet_create dist _ 20 1 0 (by omega) (by omega)]
    rw [if_neg (by omega), hfull0, hfull1, hdist]
    norm_num [pyInt]
  · intro sol path
    rfl

/-- Claim C10, witness: the theorem evaluated with the zero distance
function on the one-attraction fixture, plus one concrete skip of a depot
node during route formatting. -/
theorem depot_is_first_candidate_witness :
    matGet (create_time_matrix distZero (full_locations [wAttr]) 20) 0 1 = 0 ∧
    (buildTimeWindows 540 1260 [wAttr]).getD 0 (0, 0) = (540, 1260) ∧
    get_route_aux [wAttr] wSol (0 :: [1]) = get_route_aux [wAttr] wSol [1] :=
  ⟨(depot_is_first_candidate distZero (fun _ => rfl) wAttr [] 540 1260).2.1,
   (depot_is_first_candidate distZero (fun _ => rfl) wAttr [] 540 1260).2.2.2.1,
   (depot_is_first_candidate distZero (fun _ => rfl) wAttr [] 540 1260).2.2.2.2 wSol [1]⟩
